import Mathlib

/-!
Shallow embedding of the span-tag validation engine of `dd-apm-test-agent`
(files `span_validation/tag_checks.py`, `span_validation/span_tag_validation_check.py`,
`span_validation/span_tag_validator.py`, `trace_checks.py`), together with
theorems settling the frozen claims about its specification.

Python dictionaries are modelled as association lists in insertion order
(`PyDict`), Python values as the inductive `JVal`, and Python exceptions as
`Except`.
-/

/-- A Python value as it occurs in spans and specifications: `None`, strings,
integers, booleans, floats (modelled as rationals) and nested dictionaries. -/
inductive JVal where
  | none : JVal
  | str : String → JVal
  | int : Int → JVal
  | bool : Bool → JVal
  | float : ℚ → JVal
  | dict : List (String × JVal) → JVal
deriving Repr

/-- A Python `dict` keyed by strings, in insertion order. -/
abbrev PyDict := List (String × JVal)

/-- Generic association-list lookup (`d[k]` / `d.get(k)`): keys are unique in
any dictionary built by the operations below, as in Python. -/
def alookup {α : Type} : List (String × α) → String → Option α
  | [], _ => Option.none
  | (k', v) :: t, k => if k' = k then some v else alookup t k

/-- Python `k in d.keys()`. -/
def amem {α : Type} (d : List (String × α)) (k : String) : Bool :=
  (alookup d k).isSome

/-- Python `d[k] = v`: replace the value in place when the key is present,
append the new entry otherwise. -/
def dinsert : PyDict → String → JVal → PyDict
  | [], k, v => [(k, v)]
  | (k', v') :: t, k, v => if k' = k then (k, v) :: t else (k', v') :: dinsert t k v

/-- Python `del d[k]`. -/
def ddel : PyDict → String → PyDict
  | [], _ => []
  | (k', v') :: t, k => if k' = k then ddel t k else (k', v') :: ddel t k

/-- Python truthiness of a value. -/
def truthy : JVal → Bool
  | .none => false
  | .str s => s ≠ ""
  | .int n => n ≠ 0
  | .bool b => b
  | .float q => q ≠ 0
  | .dict d => !d.isEmpty

/-- The numeric view Python uses for `==` across `int`, `bool` and `float`. -/
def JVal.asNum : JVal → Option ℚ
  | .int n => some (n : ℚ)
  | .bool b => some (if b then 1 else 0)
  | .float q => some q
  | _ => Option.none

mutual
/-- Python `==` on values. Numeric values compare by value across `int`,
`bool` and `float` (`True == 1`); every compared value in this development is
a flattened leaf, so dictionary order-insensitivity never matters. -/
def pyEq : JVal → JVal → Bool
  | .str a, .str b => a = b
  | .none, .none => true
  | .dict a, .dict b => pyEqList a b
  | a, b =>
    match a.asNum, b.asNum with
    | some x, some y => x = y
    | _, _ => false

/-- Elementwise Python `==` on dictionary entries. -/
def pyEqList : List (String × JVal) → List (String × JVal) → Bool
  | [], [] => true
  | (k1, v1) :: t1, (k2, v2) :: t2 => k1 = k2 && pyEq v1 v2 && pyEqList t1 t2
  | _, _ => false
end

/-! ## Tag flattening -/

/-- The constant `IGNORED_TAGS` from `span_tag_validation_check.py` / `span_tag_validator.py`. -/
def IGNORED_TAGS : List String :=
  ["span_id", "trace_id", "duration", "start", "resource", "parent_id",
   "env", "version", "service", "name"]

/-- The function `unpack` from `tag_checks.py`: flatten nested dictionaries in place into the
accumulator `initial`. In Python `initial` is a mutable default argument shared
by every call; it is threaded explicitly here. -/
def unpack : List (String × JVal) → PyDict → PyDict
  | [], initial => initial
  | (k, v) :: rest, initial =>
    match v with
    | .dict d => unpack rest (unpack d initial)
    | x => unpack rest (dinsert initial k x)

/-- Method `SpanTagValidationCheck.extract_tags`: flatten the span's nested namespaces,
skipping `IGNORED_TAGS` leaves. -/
def extract_tags : List (String × JVal) → PyDict → PyDict
  | [], acc => acc
  | (k, v) :: rest, acc =>
    match v with
    | .dict d => extract_tags rest (extract_tags d acc)
    | x =>
      if k ∈ IGNORED_TAGS then extract_tags rest acc
      else extract_tags rest (dinsert acc k x)

/-- First-of-two option choice, used to state the last-write-wins policy. -/
def orElseO : Option JVal → Option JVal → Option JVal
  | some x, _ => some x
  | Option.none, b => b

/-- Specification-side description of flattening (from the spec's words, for
comparison with `extract_tags`): the value of the LAST leaf named `key` in
depth-first traversal order of the span, nested namespaces contributing their
leaf keys directly (unprefixed). Later occurrences win over earlier ones. -/
def lastLeaf : List (String × JVal) → String → Option JVal
  | [], _ => Option.none
  | (k, v) :: rest, key =>
    match v with
    | .dict d => orElseO (lastLeaf rest key) (lastLeaf d key)
    | x => orElseO (lastLeaf rest key) (if k = key then some x else Option.none)

/-! ## `span_tag_validator.py`: the assert-based validator -/

/-- A Python exception raised by the validator: `AssertionError`s carrying the
`tag_missing_assertion` / `tag_mismatch_assertion` messages (layer name and tag
name are the data the message interpolates), and `KeyError`s. -/
inductive ExcMsg where
  | tagMissing (layer tag : String)
  | tagMismatch (layer tag : String)
  | keyError (key : String)
deriving Repr, DecidableEq

/-- A tag-rule object from the (external) `tag_rules` module as the validator
consumes it: its name and its `_tag_comparisons`, `_required_tags` and
`_optional_tags` collections. -/
structure TagRules where
  name : String
  tag_comparisons : PyDict
  required_tags : List String
  optional_tags : List String

/-- The `general_span_tag_rules_map` entries the module-level constants
`GENERAL_SPAN_RULES`, `ERROR_SPAN_RULES`, `INTERNAL_SPAN_RULES` are drawn
from (the map itself lives in the external `tag_rules` module). -/
structure GeneralRulesMap where
  general : TagRules
  error : TagRules
  internal : TagRules

/-- Method `SpanTagValidator.span_matching_tag_validator`: iterate the layer's
`_tag_comparisons`; a missing tag or a value mismatch raises an
`AssertionError` (modelled as `Except.error`); a match deletes the tag. -/
def spanMatchingTagValidator (layer : String) :
    PyDict → PyDict → Except ExcMsg PyDict
  | [], tags => .ok tags
  | (e_k, e_v) :: comps, tags =>
    match alookup tags e_k with
    | Option.none => .error (.tagMissing layer e_k)
    | some actual =>
      if pyEq e_v actual then spanMatchingTagValidator layer comps (ddel tags e_k)
      else .error (.tagMismatch layer e_k)

/-- Method `SpanTagValidator.span_required_tag_validator`: iterate the layer's
`_required_tags`; a missing tag raises; a present tag is deleted unless it is
`component` and `keep_component_tag_for_later_match` is set. -/
def spanRequiredTagValidator (keep : Bool) (layer : String) :
    List String → PyDict → Except ExcMsg PyDict
  | [], tags => .ok tags
  | tag_name :: req, tags =>
    if amem tags tag_name then
      if tag_name ≠ "component" || !keep then
        spanRequiredTagValidator keep layer req (ddel tags tag_name)
      else
        spanRequiredTagValidator keep layer req tags
    else .error (.tagMissing layer tag_name)

/-- Method `SpanTagValidator.span_optional_tag_validator`: delete each optional tag
that is present; absence is not a failure. -/
def spanOptionalTagValidator : List String → PyDict → PyDict
  | [], tags => tags
  | t :: opt, tags =>
    if amem tags t then spanOptionalTagValidator opt (ddel tags t)
    else spanOptionalTagValidator opt tags

/-- Modelled from the spec: the rule objects of the missing
`tag_rules/general_span_tag_rules.py` module run the validator's three
layer-local passes in specification order (match pass, required pass,
optional pass) through the validator's methods above. -/
def tagRulesValidate (keep : Bool) (r : TagRules) (tags : PyDict) :
    Except ExcMsg PyDict := do
  let t1 ← spanMatchingTagValidator r.name r.tag_comparisons tags
  let t2 ← spanRequiredTagValidator keep r.name r.required_tags t1
  pure (spanOptionalTagValidator r.optional_tags t2)

/-- The state `SpanTagValidator.__init__` builds. -/
structure STV where
  type_span_rules_exist : Bool
  keep_component_tag_for_later_match : Bool
  validate_all_tags : Bool
  span_tag_rules_list : List TagRules

/-- Constructor `SpanTagValidator.__init__`: assemble the layer plan
`[general, internal] (+ first_in_chunk) (+ type) (+ integration_base)
(+ integration_root)` and the three policy flags. -/
def mkSpanTagValidator (m : GeneralRulesMap)
    (type_span_rules integration_base_span_rules integration_root_span_rules
      first_in_chunk_span_rules : Option TagRules) : STV :=
  let l := [m.general, m.internal]
  let l := l ++ first_in_chunk_span_rules.toList
  let type_exist := type_span_rules.isSome
  let l := l ++ type_span_rules.toList
  let keep := integration_base_span_rules.isSome
  let l := l ++ integration_base_span_rules.toList
  let l := l ++ integration_root_span_rules.toList
  let va := integration_base_span_rules.isSome && integration_root_span_rules.isSome
  ⟨type_exist, keep, va, l⟩

/-- Method `SpanTagValidator.extract_tags`: like `extract_tags` but additionally
skipping the `type` leaf when type rules exist (it is verified separately). -/
def stv_extract_tags (type_exist : Bool) : List (String × JVal) → PyDict → PyDict
  | [], acc => acc
  | (k, v) :: rest, acc =>
    match v with
    | .dict d => stv_extract_tags type_exist rest (stv_extract_tags type_exist d acc)
    | x =>
      if k ∈ IGNORED_TAGS then stv_extract_tags type_exist rest acc
      else if k = "type" ∧ type_exist then stv_extract_tags type_exist rest acc
      else stv_extract_tags type_exist rest (dinsert acc k x)

/-- Method `SpanTagValidator.validate`: insert the error layer at position 1 when the
span's error indicator is truthy, force `validate_all_tags` off when the span
has a truthy type but no type rules, flatten, then run every layer in order;
an `AssertionError` raised by a pass propagates (the `except` re-raises it).
Returns the leftover working set and the final `validate_all_tags` flag. -/
def STV.validate (m : GeneralRulesMap) (v : STV) (span : PyDict) :
    Except ExcMsg (PyDict × Bool) := do
  let errVal ← match alookup span "error" with
    | some x => Except.ok x
    | Option.none => Except.error (ExcMsg.keyError "error")
  let rules := if truthy errVal then (v.span_tag_rules_list).insertIdx 1 m.error
    else v.span_tag_rules_list
  let tyVal ← match alookup span "type" with
    | some x => Except.ok x
    | Option.none => Except.error (ExcMsg.keyError "type")
  let va := if truthy tyVal && !v.type_span_rules_exist then false
    else v.validate_all_tags
  let tags := stv_extract_tags v.type_span_rules_exist span []
  let final ← rules.foldlM
    (fun t r => tagRulesValidate v.keep_component_tag_for_later_match r t) tags
  Except.ok (final, va)

/-! ## `tag_checks.py` / `span_tag_validation_check.py`: the accumulating engine -/

/-- A Python runtime type, as compared by `type(x) != string_to_type_map[...]`. -/
inductive PyType where
  | strT | intT | boolT | floatT | noneT | dictT
deriving DecidableEq, Repr

/-- The map `string_to_type_map` from `tag_checks.py`. -/
def string_to_type_map : List (String × PyType) :=
  [("string", .strT), ("integer", .intT), ("bool", .boolT), ("float", .floatT),
   ("str", .strT), ("int", .intT)]

/-- Python `type(v)` (`bool` is distinct from `int`, as in Python). -/
def pyTypeOf : JVal → PyType
  | .none => .noneT
  | .str _ => .strT
  | .int _ => .intT
  | .bool _ => .boolT
  | .float _ => .floatT
  | .dict _ => .dictT

/-- A recorded per-tag violation (`Check.fail` message data: tag name, check
name, expected/actual type data, leftover tag names). -/
inductive Failure where
  | requiredTagError (tag span_check : String)
  | matchingTagError (tag span_check : String)
  | typeError (tag expected : String) (got : PyType)
  | unvalidatedTags (names : List String)
deriving DecidableEq, Repr

/-- A `TagCheck` as built by `SpanTagChecks.__init__` from one tag's rule
object: `required` and `value` are whatever the specification JSON held
(`None` when absent), `type` is a string when present. -/
structure TagCheckT where
  name : String
  val_type : Option String
  required : JVal
  value : JVal

/-- Truthiness of the optional `type` string. -/
def truthyOptStr : Option String → Bool
  | some s => s ≠ ""
  | Option.none => false

/-- Method `TagCheck.check` from `tag_checks.py`. `Check.fail` is modelled from the
spec's propagation policy (per-tag violations are collected, not thrown), so
the result carries the recorded failures; an uncaught `KeyError` from direct
subscripting (`flattened_span[self.name]`, `string_to_type_map[self.val_type]`)
is `Except.error`. The `unpack` accumulator (a mutable default argument shared
across every call in Python) is threaded as `shared` and returned updated.
Console logging is omitted. -/
def tagCheck_check (c : TagCheckT) (span_check_name : String) (span : PyDict)
    (shared : PyDict) : Except ExcMsg (PyDict × List Failure) :=
  let flattened := unpack span shared
  if truthy c.required && truthy c.value then
    let fails1 : List Failure :=
      if amem flattened c.name then [] else [.requiredTagError c.name span_check_name]
    match alookup flattened c.name with
    | Option.none => .error (.keyError c.name)
    | some actual =>
      let fails2 : List Failure :=
        if pyEq actual c.value then [] else [.matchingTagError c.name span_check_name]
      .ok (flattened, fails1 ++ fails2)
  else if truthy c.required then
    let fails1 : List Failure :=
      if amem flattened c.name then [] else [.requiredTagError c.name span_check_name]
    if truthyOptStr c.val_type then
      match alookup flattened c.name with
      | Option.none => .error (.keyError c.name)
      | some actual =>
        match c.val_type with
        | some ts =>
          match alookup string_to_type_map ts with
          | Option.none => .error (.keyError ts)
          | some pt =>
            if pyTypeOf actual ≠ pt then
              .ok (flattened, fails1 ++ [.typeError c.name ts (pyTypeOf actual)])
            else .ok (flattened, fails1)
        | Option.none => .ok (flattened, fails1)
      else .ok (flattened, fails1)
  else
    match alookup flattened c.name with
    | Option.none => .ok (flattened, [])
    | some actual =>
      if truthyOptStr c.val_type then
        match c.val_type with
        | some ts =>
          match alookup string_to_type_map ts with
          | Option.none => .error (.keyError ts)
          | some pt =>
            if pyTypeOf actual ≠ pt then
              .ok (flattened, [.typeError c.name ts (pyTypeOf actual)])
            else .ok (flattened, [])
        | Option.none => .ok (flattened, [])
      else .ok (flattened, [])

/-- A `SpanTagChecks` layer: name, optional declared type, tag checks. -/
structure SpanTagChecksT where
  name : String
  span_type : JVal
  tag_checks : List TagCheckT

/-- The loop body of `SpanTagChecks.check`: run each tag check, accumulating
failures, then delete the checked tag from the validation check's working
`_tags` when present (deletion happens whether or not the check failed). -/
def runTagChecks (span : PyDict) (check_name : String) :
    List TagCheckT → PyDict → PyDict → List Failure →
    Except ExcMsg (PyDict × PyDict × List Failure)
  | [], tags, shared, fails => .ok (tags, shared, fails)
  | c :: cs, tags, shared, fails =>
    match tagCheck_check c check_name span shared with
    | .error e => .error e
    | .ok (shared', newfails) =>
      let tags' := if amem tags c.name then ddel tags c.name else tags
      runTagChecks span check_name cs tags' shared' (fails ++ newfails)

/-- Method `SpanTagChecks.check` over the validation check's state. -/
def spanTagChecks_check (sc : SpanTagChecksT) (span : PyDict)
    (tags shared : PyDict) (fails : List Failure) :
    Except ExcMsg (PyDict × PyDict × List Failure) :=
  runTagChecks span sc.name sc.tag_checks tags shared fails

/-- The truthy `span_error == 1` test of `SpanTagValidationCheck.__init__`
(`span.get("error", None)`; Python `True == 1` holds). -/
def errorIndicatorOne : Option JVal → Bool
  | some x => truthy x && pyEq x (JVal.int 1)
  | Option.none => false

/-- The layer plan `SpanTagValidationCheck.__init__` assembles (lines 85-103):
start from `[general, internal]`, APPEND the first-in-chunk check when given,
insert the error check at position 1 when the span's error indicator equals 1,
then append the type check and the integration check. -/
def spanTagsChecksList {α : Type} (general internal error_check : α)
    (first_in_chunk type_check integration : Option α)
    (span_error : Option JVal) : List α :=
  let l := [general, internal]
  let l := l ++ first_in_chunk.toList
  let l := if errorIndicatorOne span_error then l.insertIdx 1 error_check else l
  let l := l ++ type_check.toList
  l ++ integration.toList

/-- A validation verdict. `SpanTagValidationCheck.check` records failures via
the `Check` framework; the framework's verdict is modelled from the spec's
outcome policy (FAIL iff any failure was recorded). -/
inductive Verdict where
  | pass | warn | fail
deriving DecidableEq, Repr

/-- The outcome step of `SpanTagValidationCheck.check` (lines 122-134): with
the accumulated failures and the leftover working set, add an
`UnvalidatedTags` failure naming every leftover tag when `validate_all_tags`
is set, and produce the verdict (verdict aggregation modelled from the spec:
FAIL iff a failure exists, WARN on leftover without strict mode, PASS else). -/
def spanCheckOutcome (fails : List Failure) (tags : PyDict)
    (validate_all : Bool) : Verdict × List Failure :=
  if tags.length > 0 then
    if validate_all then (.fail, fails ++ [.unvalidatedTags (tags.map (·.1))])
    else (if fails.isEmpty then .warn else .fail, fails)
  else (if fails.isEmpty then .pass else .fail, fails)

/-! ## `SpanTagChecksLoader.find_span_tag_check` -/

/-- The constant `TESTED_SPAN_TYPES` from `tag_checks.py` / `span_tag_validation_check.py`. -/
def TESTED_SPAN_TYPES : List String := ["http"]

/-- Python `x in TESTED_SPAN_TYPES` (list membership by `==`; only an equal
string can match). -/
def isTested : JVal → Bool
  | .str s => s ∈ TESTED_SPAN_TYPES
  | _ => false

/-- The string content of a value known to be a string (used only under
`isTested`). -/
def strOfJ : JVal → String
  | .str s => s
  | _ => ""

/-- What `load_span_tag_check` reads out of a specification document: its
`name` and optional `type`; the tag checks themselves are irrelevant to spec
resolution. -/
structure SpecDoc where
  name : JVal
  span_type : JVal

/-- The dictionary `find_span_tag_check` returns. -/
structure FoundChecks where
  integration_span_check : Option SpecDoc
  type_span_check : Option SpecDoc

/-- Expression `span.get("meta", {}).get("component", "")` (line 180); a non-string
component behaves like the default `""` for the string-keyed index lookup. -/
def componentOf (span : PyDict) : String :=
  match alookup span "meta" with
  | some (.dict m) =>
    match alookup m "component" with
    | some (.str s) => s
    | _ => ""
  | _ => ""

/-- Expression `span.get("name")` as a string index key (line 181); a missing or
non-string name matches no index entry, like in Python. -/
def spanNameOf (span : PyDict) : String :=
  match alookup span "name" with
  | some (.str s) => s
  | _ => ""

/-- Lines 193-199: when the loaded integration spec declares a truthy
`span_type` among the tested types, chain-load that type's general layer. -/
def chainedTypeCheck (loadType : String → SpecDoc) (ic : SpecDoc) : Option SpecDoc :=
  if truthy ic.span_type ∧ isTested ic.span_type then
    some (loadType (strOfJ ic.span_type))
  else Option.none

/-- Method `SpanTagChecksLoader.find_span_tag_check`. The integration index
`integration_specs` maps component name to (span name / `"<component>.*"` →
position); `loadIntegration component i` models
`load_span_tag_check(<component>-spec.json, spec_index=i)` and
`loadType t` models `load_span_tag_check(<t>-spec.json)` (the files indexed
at startup exist, so these loads are total). A known component whose index
contains neither the span's name nor the wildcard key raises `KeyError`
(`self.integration_specs[component][component + ".*"]`, line 188). -/
def find_span_tag_check
    (integration_specs : List (String × List (String × Nat)))
    (loadIntegration : String → Nat → SpecDoc)
    (loadType : String → SpecDoc)
    (span : PyDict) : Except ExcMsg FoundChecks :=
  let component := componentOf span
  let span_name := spanNameOf span
  let no_integration : Except ExcMsg FoundChecks :=
    let st := (alookup span "type").getD JVal.none
    if truthy st ∧ isTested st then
      .ok ⟨Option.none, some (loadType (strOfJ st))⟩
    else .ok ⟨Option.none, Option.none⟩
  if component ≠ "" then
    match alookup integration_specs component with
    | some idx =>
      let spec_index : Except ExcMsg Nat :=
        match alookup idx span_name with
        | some i => .ok i
        | Option.none =>
          match alookup idx (component ++ ".*") with
          | some i => .ok i
          | Option.none => .error (.keyError (component ++ ".*"))
      match spec_index with
      | .error e => .error e
      | .ok si =>
        let ic := loadIntegration component si
        .ok ⟨some ic, chainedTypeCheck loadType ic⟩
    | Option.none => no_integration
  else no_integration

/-! ## Concrete fixtures used by witnesses and counterexamples -/

/-- A rule layer with no tag rules at all. -/
def trivialRules (n : String) : TagRules := ⟨n, [], [], []⟩

/-- An integration-base layer requiring only `component`. -/
def baseRules : TagRules := ⟨"integration-base", [], ["component"], []⟩

/-- An integration-root layer requiring only `component`. -/
def rootRules : TagRules := ⟨"integration-root", [], ["component"], []⟩

/-- A rules map whose general/error/internal layers assert nothing. -/
def m0 : GeneralRulesMap :=
  ⟨trivialRules "general", trivialRules "error", trivialRules "internal"⟩

/-- A non-error span with empty type whose meta carries `component: redis`. -/
def span0 : PyDict :=
  [("name", JVal.str "s"), ("error", JVal.int 0), ("type", JVal.str ""),
   ("meta", JVal.dict [("component", JVal.str "redis")])]

/-- A required tag check on `a` with no expected value and no type. -/
def reqA : TagCheckT := ⟨"a", Option.none, JVal.bool true, JVal.none⟩

/-- A span carrying only the tag `a`. -/
def spanA : PyDict := [("a", JVal.int 1)]

/-- A span that does NOT carry the tag `a`. -/
def spanB : PyDict := [("name", JVal.str "s2")]

/-- The integration index of the spec's wildcard-fallback scenario. -/
def redisIndex : List (String × List (String × Nat)) :=
  [("redis", [("redis.command", 0), ("redis.*", 1)])]

/-- A redis index with no wildcard entry. -/
def redisIndexNoWild : List (String × List (String × Nat)) :=
  [("redis", [("redis.command", 0)])]

/-- A loader stub that records which (component, position) was loaded. -/
def loadI0 : String → Nat → SpecDoc := fun c i => ⟨JVal.str c, JVal.int i⟩

/-- A type-layer loader stub recording the requested type. -/
def loadT0 : String → SpecDoc := fun t => ⟨JVal.str t, JVal.none⟩

/-- The spec's scenario span: named `redis.unusual`, component `redis`. -/
def spanRedisUnusual : PyDict :=
  [("name", JVal.str "redis.unusual"), ("meta", JVal.dict [("component", JVal.str "redis")])]

/-- A redis span whose name has no exact index entry. -/
def spanRedisGet : PyDict :=
  [("name", JVal.str "redis.get"), ("meta", JVal.dict [("component", JVal.str "redis")])]

/-- A span with an unknown component and an untested type. -/
def spanFlask : PyDict :=
  [("name", JVal.str "flask.request"), ("meta", JVal.dict [("component", JVal.str "flask")]),
   ("type", JVal.str "sql")]

/-! ## Dictionary lemmas -/

theorem alookup_dinsert (d : PyDict) (k : String) (v : JVal) (key : String) :
    alookup (dinsert d k v) key = if k = key then some v else alookup d key := by
  induction d with
  | nil => simp [dinsert, alookup]
  | cons p t ih =>
    obtain ⟨k', v'⟩ := p
    simp only [dinsert]
    by_cases h1 : k' = k
    · simp only [if_pos h1]
      subst h1
      by_cases h2 : k' = key <;> simp [alookup, h2]
    · simp only [if_neg h1]
      by_cases h2 : k' = key
      · have hk : ¬ k = key := fun h => h1 (h2.trans h.symm)
        simp [alookup, h2, hk]
      · simp [alookup, h2, ih]

theorem alookup_ddel (d : PyDict) (k : String) (key : String) :
    alookup (ddel d k) key = if k = key then Option.none else alookup d key := by
  induction d with
  | nil => simp [ddel, alookup]
  | cons p t ih =>
    obtain ⟨k', v'⟩ := p
    simp only [ddel]
    by_cases h1 : k' = k
    · simp only [if_pos h1]
      subst h1
      by_cases h2 : k' = key
      · subst h2
        simp [ih]
      · simp [alookup, ih, h2]
    · simp only [if_neg h1]
      by_cases h2 : k' = key
      · have hk : ¬ k = key := fun h => h1 (h2.trans h.symm)
        simp [alookup, h2, hk]
      · simp [alookup, h2, ih]

theorem orElseO_assoc (a b c : Option JVal) :
    orElseO (orElseO a b) c = orElseO a (orElseO b c) := by
  cases a <;> simp [orElseO]

theorem orElseO_none_right (a : Option JVal) : orElseO a Option.none = a := by
  cases a <;> simp [orElseO]

theorem alookup_extract_tags (s : List (String × JVal)) (acc : PyDict) (key : String) :
    alookup (extract_tags s acc) key =
      if key ∈ IGNORED_TAGS then alookup acc key
      else orElseO (lastLeaf s key) (alookup acc key) := by
  induction s, acc using extract_tags.induct with
  | case1 acc =>
    by_cases h : key ∈ IGNORED_TAGS <;> simp [extract_tags, lastLeaf, orElseO, h]
  | case2 k rest acc d ih_d ih_rest =>
    by_cases h : key ∈ IGNORED_TAGS
    · simp [extract_tags, ih_d, ih_rest, h]
    · simp [extract_tags, lastLeaf, ih_d, ih_rest, h, orElseO_assoc]
  | case3 k rest acc x hxd hmem ih =>
    by_cases h : key ∈ IGNORED_TAGS
    · simp [extract_tags, hmem, ih, h]
    · have hne : ¬ k = key := fun he => h (he ▸ hmem)
      simp [extract_tags, lastLeaf, hmem, ih, h, hne, orElseO_none_right]
  | case4 k rest acc x hxd hmem ih =>
    by_cases h : key ∈ IGNORED_TAGS
    · have hne : ¬ k = key := fun he => hmem (he ▸ h)
      simp [extract_tags, hmem, ih, h, alookup_dinsert, hne]
    · simp only [extract_tags, if_neg hmem, ih, if_neg h, lastLeaf,
        alookup_dinsert, orElseO_assoc]
      by_cases hkk : k = key
      · cases hl : lastLeaf rest key <;> simp [hl, hkk, orElseO]
      · cases hl : lastLeaf rest key <;> simp [hl, hkk, orElseO]

/-- C9: flattening a span yields exactly the last-write-wins mapping of its
leaf keys outside the baseline `IGNORED_TAGS` set, with nested namespaces
flattened in place (their leaf keys appear unprefixed, as `lastLeaf` descends
into nested dictionaries without prefixing). -/
theorem c9_flattening (s : List (String × JVal)) (key : String) :
    alookup (extract_tags s []) key =
      if key ∈ IGNORED_TAGS then Option.none else lastLeaf s key := by
  have h := alookup_extract_tags s [] key
  simpa [alookup, orElseO_none_right] using h

/-- C10 counterexample: with a first-in-chunk layer supplied (and no error),
the plan is `[general, internal, first-in-chunk]` — the first-in-chunk layer
sits at position 2, after the internal layer, NOT immediately after the
general layer as the claim states. -/
theorem c10_counterexample :
    spanTagsChecksList "general" "internal" "error-layer" (some "first-in-chunk")
        Option.none Option.none (some (JVal.int 0)) =
      ["general", "internal", "first-in-chunk"] ∧
    ["general", "internal", "first-in-chunk"].get? 1 = some "internal" :=
  ⟨rfl, rfl⟩

/-- C10 amended: the plan is general first and internal second; the error
layer, when the span's error indicator equals 1, is inserted at position 1
(right after general); the first-in-chunk layer is APPENDED after the base
layers (before type and integration layers), not placed right after general. -/
theorem c10_plan_layout {α : Type} (general internal error_check : α)
    (first type_check integration : Option α) (span_error : Option JVal) :
    spanTagsChecksList general internal error_check first type_check integration span_error =
      (if errorIndicatorOne span_error then [general, error_check, internal]
        else [general, internal])
        ++ first.toList ++ type_check.toList ++ integration.toList := by
  cases first <;> by_cases h : errorIndicatorOne span_error <;>
    simp [spanTagsChecksList, h, List.insertIdx]

/-- C5: the outcome policy of `SpanTagValidationCheck.check`: FAIL iff a
failure was recorded or (leftover tags exist and strict mode is on); WARN iff
no failure, leftover tags exist and strict mode is off; PASS iff no failure
and no leftover; in the strict-leftover case an `UnvalidatedTags` failure
listing every leftover tag name is appended. -/
theorem c5_outcome_policy (fails : List Failure) (tags : PyDict) (va : Bool) :
    ((spanCheckOutcome fails tags va).1 = .fail ↔ fails ≠ [] ∨ (tags ≠ [] ∧ va = true)) ∧
    ((spanCheckOutcome fails tags va).1 = .warn ↔ fails = [] ∧ tags ≠ [] ∧ va = false) ∧
    ((spanCheckOutcome fails tags va).1 = .pass ↔ fails = [] ∧ tags = []) ∧
    (tags ≠ [] → va = true →
      (spanCheckOutcome fails tags va).2 = fails ++ [.unvalidatedTags (tags.map (·.1))]) := by
  cases tags <;> cases va <;> cases fails <;> simp [spanCheckOutcome]

/-- C5 witness: one leftover tag under strict mode with no recorded failures
gives FAIL with an `UnvalidatedTags` failure naming the leftover tag. -/
theorem c5_outcome_policy_witness :
    (spanCheckOutcome [] [("a", JVal.int 1)] true).1 = .fail ∧
    (spanCheckOutcome [] [("a", JVal.int 1)] true).2 = [.unvalidatedTags ["a"]] :=
  ⟨((c5_outcome_policy [] [("a", JVal.int 1)] true).1).mpr
      (Or.inr ⟨List.cons_ne_nil _ _, rfl⟩),
   (c5_outcome_policy [] [("a", JVal.int 1)] true).2.2.2 (List.cons_ne_nil _ _) rfl⟩

/-- C3 counterexample: a mismatched expected value is NOT recorded as a
failure with validation continuing — `span_matching_tag_validator` raises an
`AssertionError` (the run aborts with `Except.error`); the second conjunct
shows the remaining rule `m` (which would match) is never evaluated, i.e. the
pass short-circuits instead of continuing. -/
theorem c3_counterexample :
    spanMatchingTagValidator "http" [("k", JVal.str "w")] [("k", JVal.str "v")] =
      .error (.tagMismatch "http" "k") ∧
    spanMatchingTagValidator "http" [("k", JVal.str "w"), ("m", JVal.str "x")]
        [("k", JVal.str "v"), ("m", JVal.str "x")] =
      .error (.tagMismatch "http" "k") :=
  ⟨rfl, rfl⟩

/-- C3 amended: in the match pass, a tag present with exactly the expected
value is removed from the working set and the pass continues; a missing tag
or a differing value raises an `AssertionError` immediately (`TagMissing` /
`TagMismatch` message), the working set is not updated and later rules are
not evaluated. -/
theorem c3_match_pass (layer k : String) (v : JVal) (comps tags : PyDict) :
    (alookup tags k = Option.none →
      spanMatchingTagValidator layer ((k, v) :: comps) tags =
        .error (.tagMissing layer k)) ∧
    (∀ actual, alookup tags k = some actual → pyEq v actual = false →
      spanMatchingTagValidator layer ((k, v) :: comps) tags =
        .error (.tagMismatch layer k)) ∧
    (∀ actual, alookup tags k = some actual → pyEq v actual = true →
      spanMatchingTagValidator layer ((k, v) :: comps) tags =
        spanMatchingTagValidator layer comps (ddel tags k)) := by
  refine ⟨fun h => ?_, fun a ha hne => ?_, fun a ha heq => ?_⟩
  · simp [spanMatchingTagValidator, h]
  · simp [spanMatchingTagValidator, ha, hne]
  · simp [spanMatchingTagValidator, ha, heq]

/-- C3 witness: a matching rule removes the tag and continues; a mismatching
rule raises. -/
theorem c3_match_pass_witness :
    spanMatchingTagValidator "http" [("k", JVal.str "v")] [("k", JVal.str "v")] =
      spanMatchingTagValidator "http" [] (ddel [("k", JVal.str "v")] "k") ∧
    spanMatchingTagValidator "http" [("q", JVal.str "w")] [("q", JVal.str "v")] =
      .error (.tagMismatch "http" "q") :=
  ⟨(c3_match_pass "http" "k" (JVal.str "v") [] [("k", JVal.str "v")]).2.2
      (JVal.str "v") rfl rfl,
   (c3_match_pass "http" "q" (JVal.str "w") [] [("q", JVal.str "v")]).2.1
      (JVal.str "v") rfl rfl⟩

/-- C2: `TagCheck.check` records the missing-required-tag failure but then
unconditionally subscripts the flattened span (line 67 for rules with an
expected value, line 80 for typed required rules), so an expected violation
(a missing required tag) aborts the whole run with a `KeyError` instead of
accumulating and continuing. -/
theorem c2_required_tag_keyerror :
    tagCheck_check ⟨"foo", some "string", JVal.bool true, JVal.str "bar"⟩
      "integration-name" [("name", JVal.str "s"), ("meta", JVal.dict [])] [] =
      .error (.keyError "foo") ∧
    tagCheck_check ⟨"foo", some "string", JVal.bool true, JVal.none⟩
      "integration-name" [("name", JVal.str "s"), ("meta", JVal.dict [])] [] =
      .error (.keyError "foo") := by
  constructor <;>
    simp [tagCheck_check, unpack, dinsert, alookup, amem, truthy, truthyOptStr]

/-- C8: the flattener's accumulator is a shared mutable default argument, so
state DOES carry over between validation runs: after checking a span carrying
tag `a`, checking a different span that lacks `a` against a required-`a` rule
records no failure (first two conjuncts), while the same check from a fresh
accumulator records the `REQUIRED-TAG-ERROR` (third conjunct). -/
theorem c8_shared_accumulator :
    tagCheck_check reqA "general" spanA [] = .ok ([("a", JVal.int 1)], []) ∧
    tagCheck_check reqA "general" spanB [("a", JVal.int 1)] =
      .ok ([("a", JVal.int 1), ("name", JVal.str "s2")], []) ∧
    tagCheck_check reqA "general" spanB [] =
      .ok ([("name", JVal.str "s2")], [.requiredTagError "a" "general"]) := by
  refine ⟨?_, ?_, ?_⟩ <;>
    simp [tagCheck_check, reqA, spanA, spanB, unpack, dinsert, alookup, amem,
      truthy, truthyOptStr]

/-- C6: when the span's component is known to the integration index, the
span's exact name is looked up first; only when no exact entry exists is the
synthetic wildcard key `<component>.*` used; the integration spec loaded is
the one at the indexed position. -/
theorem c6_integration_lookup
    (specs : List (String × List (String × Nat)))
    (loadIntegration : String → Nat → SpecDoc) (loadType : String → SpecDoc)
    (span : PyDict) (idx : List (String × Nat))
    (hc : componentOf span ≠ "")
    (hidx : alookup specs (componentOf span) = some idx) :
    (∀ i, alookup idx (spanNameOf span) = some i →
      find_span_tag_check specs loadIntegration loadType span =
        .ok ⟨some (loadIntegration (componentOf span) i),
          chainedTypeCheck loadType (loadIntegration (componentOf span) i)⟩) ∧
    (∀ i, alookup idx (spanNameOf span) = Option.none →
      alookup idx (componentOf span ++ ".*") = some i →
      find_span_tag_check specs loadIntegration loadType span =
        .ok ⟨some (loadIntegration (componentOf span) i),
          chainedTypeCheck loadType (loadIntegration (componentOf span) i)⟩) := by
  constructor
  · intro i hi
    simp [find_span_tag_check, hc, hidx, hi]
  · intro i hnone hi
    simp [find_span_tag_check, hc, hidx, hnone, hi]

/-- C6 witness: the spec's scenario — index
`{"redis": {"redis.command": 0, "redis.*": 1}}`, span named `redis.unusual` —
resolves the integration spec at position 1. -/
theorem c6_integration_lookup_witness :
    find_span_tag_check redisIndex loadI0 loadT0 spanRedisUnusual =
      .ok ⟨some ⟨JVal.str "redis", JVal.int 1⟩, Option.none⟩ :=
  (c6_integration_lookup redisIndex loadI0 loadT0 spanRedisUnusual
      [("redis.command", 0), ("redis.*", 1)] (by decide) rfl).2 1 rfl rfl

/-- C7 counterexample: a known component whose index has no exact entry for
the span's name and no wildcard entry is NOT treated as "not applicable" —
`find_span_tag_check` raises a `KeyError` instead of returning without the
layer. -/
theorem c7_counterexample :
    find_span_tag_check redisIndexNoWild loadI0 loadT0 spanRedisGet =
      .error (.keyError "redis.*") := by
  simp [find_span_tag_check, redisIndexNoWild, spanRedisGet, componentOf,
    spanNameOf, alookup]

/-- C7 amended: an unknown (or empty) component with an untested span type
yields no layers and no error, and only required base-layer loads are fatal;
but when the component is known and its index holds neither the span's exact
name nor the wildcard key, the lookup raises a `KeyError` rather than
treating the integration as not applicable. -/
theorem c7_lookup_miss_policy
    (specs : List (String × List (String × Nat)))
    (loadIntegration : String → Nat → SpecDoc) (loadType : String → SpecDoc)
    (span : PyDict) :
    ((componentOf span = "" ∨ alookup specs (componentOf span) = Option.none) →
      ¬(truthy ((alookup span "type").getD JVal.none) = true ∧
        isTested ((alookup span "type").getD JVal.none) = true) →
      find_span_tag_check specs loadIntegration loadType span =
        .ok ⟨Option.none, Option.none⟩) ∧
    (∀ idx, componentOf span ≠ "" → alookup specs (componentOf span) = some idx →
      alookup idx (spanNameOf span) = Option.none →
      alookup idx (componentOf span ++ ".*") = Option.none →
      find_span_tag_check specs loadIntegration loadType span =
        .error (.keyError (componentOf span ++ ".*"))) := by
  constructor
  · intro hcomp hty
    rcases hcomp with hc | hn
    · simp [find_span_tag_check, hc, hty]
    · by_cases hc : componentOf span = ""
      · simp [find_span_tag_check, hc, hty]
      · simp [find_span_tag_check, hc, hn, hty]
  · intro idx hc hidx hname hwild
    simp [find_span_tag_check, hc, hidx, hname, hwild]

/-- C7 witness: an unknown component (`flask`) with an untested type (`sql`)
resolves no layers and raises nothing; a known component with no exact and no
wildcard entry raises `KeyError`. -/
theorem c7_lookup_miss_policy_witness :
    find_span_tag_check redisIndexNoWild loadI0 loadT0 spanFlask =
      .ok ⟨Option.none, Option.none⟩ ∧
    find_span_tag_check redisIndexNoWild loadI0 loadT0 spanRedisGet =
      .error (.keyError "redis.*") :=
  ⟨(c7_lookup_miss_policy redisIndexNoWild loadI0 loadT0 spanFlask).1
      (Or.inr rfl) (by decide),
   (c7_lookup_miss_policy redisIndexNoWild loadI0 loadT0 spanRedisGet).2
      [("redis.command", 0)] (by decide) rfl rfl rfl⟩

/-- C1 counterexample: with both integration-base and integration-root layers
in the plan (so the retention flag is set), the base layer's required pass
keeps `component` — but so does the root layer's required pass: the flag is
never cleared, so `component` is never removed, refuting "after the
integration-root layer's required pass runs, `component` has been removed". -/
theorem c1_counterexample :
    (mkSpanTagValidator m0 Option.none (some baseRules) (some rootRules)
      Option.none).keep_component_tag_for_later_match = true ∧
    spanRequiredTagValidator true "integration-base" baseRules.required_tags
      [("component", JVal.str "redis")] = .ok [("component", JVal.str "redis")] ∧
    spanRequiredTagValidator true "integration-root" rootRules.required_tags
      [("component", JVal.str "redis")] = .ok [("component", JVal.str "redis")] ∧
    alookup [("component", JVal.str "redis")] "component" = some (JVal.str "redis") :=
  ⟨rfl, rfl, rfl, rfl⟩

/-- C1 amended: when both integration-base and integration-root layers are
supplied, the retention flag is set (and never cleared), and under it a
required pass NEVER removes the `component` tag: after any layer's required
pass — the base's and the root's alike — `component` is exactly as it was. -/
theorem c1_component_retention (m : GeneralRulesMap) (b r : TagRules)
    (layer : String) (req : List String) (tags t' : PyDict)
    (h : spanRequiredTagValidator true layer req tags = .ok t') :
    (mkSpanTagValidator m Option.none (some b) (some r)
      Option.none).keep_component_tag_for_later_match = true ∧
    alookup t' "component" = alookup tags "component" := by
  refine ⟨rfl, ?_⟩
  induction req generalizing tags with
  | nil =>
    simp only [spanRequiredTagValidator] at h
    cases h
    rfl
  | cons tg rest ih =>
    simp only [spanRequiredTagValidator] at h
    by_cases hm : amem tags tg
    · rw [if_pos hm] at h
      by_cases hc : tg = "component"
      · subst hc
        have hcond : (decide (("component" : String) ≠ "component") || !true) = false := by
          simp
        rw [if_neg (by simp [hcond])] at h
        exact ih tags h
      · have hcond : (decide (tg ≠ "component") || !true) = true := by simp [hc]
        rw [if_pos hcond] at h
        have h2 := ih (ddel tags tg) h
        rw [h2, alookup_ddel, if_neg hc]
    · rw [if_neg hm] at h
      cases h

/-- C1 witness: the retention flag is set and the root layer's required pass
over a working set holding `component: redis` leaves the lookup unchanged. -/
theorem c1_component_retention_witness :
    (mkSpanTagValidator m0 Option.none (some baseRules) (some rootRules)
      Option.none).keep_component_tag_for_later_match = true ∧
    alookup [("component", JVal.str "redis")] "component" =
      alookup [("component", JVal.str "redis")] "component" :=
  c1_component_retention m0 baseRules rootRules "integration-root" ["component"]
    [("component", JVal.str "redis")] [("component", JVal.str "redis")] rfl

/-- C4 counterexample: a validator built with NO type layer but a full
integration base+root pair, run on a span whose type is the empty string,
finishes with `validate_all_tags = true` — refuting "`validateAll` is true
only when both a type layer and a full integration pair are present" (the
empty-string and forced-false clauses of the claim do hold). -/
theorem c4_counterexample :
    (mkSpanTagValidator m0 Option.none (some baseRules) (some rootRules)
      Option.none).type_span_rules_exist = false ∧
    STV.validate m0 (mkSpanTagValidator m0 Option.none (some baseRules)
        (some rootRules) Option.none) span0 =
      .ok ([("error", JVal.int 0), ("type", JVal.str ""),
        ("component", JVal.str "redis")], true) := by
  refine ⟨rfl, ?_⟩
  have h : stv_extract_tags false span0 [] =
      [("error", JVal.int 0), ("type", JVal.str ""), ("component", JVal.str "redis")] := by
    simp [span0, stv_extract_tags, IGNORED_TAGS, dinsert]
  have hv : (mkSpanTagValidator m0 Option.none (some baseRules) (some rootRules)
      Option.none).type_span_rules_exist = false := rfl
  simp only [STV.validate, hv, h]
  rfl

theorem except_bind_ok {e a b : Type} (x : Except e a) (f : a → Except e b) (r : b)
    (h : (x >>= f) = .ok r) : ∃ v, x = .ok v ∧ f v = .ok r := by
  cases x with
  | error err => simp [Bind.bind, Except.bind] at h
  | ok v => exact ⟨v, rfl, by simpa [Bind.bind, Except.bind] using h⟩

/-- C4 amended: for a validator built by `__init__`, a completed run's final
`validate_all_tags` flag equals: both integration-base and integration-root
layers present AND NOT (the span carries a truthy type while no type layer
exists). A type layer is not otherwise required, and an empty type string
(falsy in Python) does not suppress the flag. -/
theorem c4_validate_all (m : GeneralRulesMap)
    (typeR baseR rootR firstR : Option TagRules)
    (span : PyDict) (tags : PyDict) (va : Bool)
    (h : STV.validate m (mkSpanTagValidator m typeR baseR rootR firstR) span =
      .ok (tags, va)) :
    va = (baseR.isSome && rootR.isSome &&
      !(truthy ((alookup span "type").getD JVal.none) && !typeR.isSome)) := by
  unfold STV.validate at h
  rcases he : alookup span "error" with _ | ev <;> rw [he] at h
  · simp [bind, Except.bind] at h
  · simp only [bind, Except.bind] at h
    rcases ht : alookup span "type" with _ | tv <;> rw [ht] at h
    · simp at h
    · simp only [mkSpanTagValidator] at h
      obtain ⟨fin, hf, h⟩ := except_bind_ok _ _ _ h
      simp only [Option.getD_some]
      simp only [Except.ok.injEq, Prod.mk.injEq] at h
      cases hb : (truthy tv && !typeR.isSome) <;> rw [hb] at h <;> simp [hb, ← h.2]

/-- C4 witness: the claim's hypotheses are satisfiable — the span0 run
completes and its final flag obeys the characterization. -/
theorem c4_validate_all_witness :
    true = ((some baseRules).isSome && (some rootRules).isSome &&
      !(truthy ((alookup span0 "type").getD JVal.none) &&
        !(Option.none : Option TagRules).isSome)) :=
  c4_validate_all m0 Option.none (some baseRules) (some rootRules) Option.none
    span0
    [("error", JVal.int 0), ("type", JVal.str ""), ("component", JVal.str "redis")]
    true
    (by
      have h : stv_extract_tags false span0 [] =
          [("error", JVal.int 0), ("type", JVal.str ""),
           ("component", JVal.str "redis")] := by
        simp [span0, stv_extract_tags, IGNORED_TAGS, dinsert]
      have hv : (mkSpanTagValidator m0 Option.none (some baseRules)
          (some rootRules) Option.none).type_span_rules_exist = false := rfl
      simp only [STV.validate, hv, h]
      rfl)
